import Mathlib

/-!
Shallow embedding of src/main.py (a Telegram relay bot).

The program receives a chat event carrying an embedded JSON payload from a
mini web app, reshapes it into a fixed envelope (format_payload), POSTs the
envelope to a configured webhook (send_to_webhook), and echoes a confirmation
to the user (web_app_data handler).  The library calls that touch the outside
world (json.loads, requests.post, reply_html, reply_text) are modelled by
outcome parameters supplied in a HandlerEnv; the code itself is translated
as pure functions producing a trace of outbound actions together with an
exception channel.
-/

namespace LogBot

/-- JSON values, as produced by json.loads and consumed by json.dumps.
Numbers are modelled as integers; this suffices for every field the program
itself writes into the envelope, and the embedded payload is quantified over
arbitrarily. -/
inductive Json where
  | null : Json
  | bool (b : Bool) : Json
  | num (n : Int) : Json
  | str (s : String) : Json
  | arr (elems : List Json) : Json
  | obj (fields : List (String × Json)) : Json

/-- Python None / a missing optional string field, serialized to JSON. -/
def jsonOfOptStr : Option String → Json
  | none => Json.null
  | some s => Json.str s

/-- Rendering of a value in a Python f-string: None prints as the text None. -/
def pyShow : Option String → String
  | none => "None"
  | some s => s

mutual

/-- Serialization of a JSON value, modelling json.dumps with the default
separators.  Indentation options passed at the log sites are abstracted away:
no claim inspects the log text beyond fixed marker lines. -/
def Json.dumps : Json → String
  | Json.null => "null"
  | Json.bool true => "true"
  | Json.bool false => "false"
  | Json.num n => toString n
  | Json.str s => "\"" ++ s ++ "\""
  | Json.arr elems => "[" ++ Json.dumpsList elems ++ "]"
  | Json.obj fields => "\x7b" ++ Json.dumpsFields fields ++ "\x7d"

/-- Serialization of the elements of a JSON array. -/
def Json.dumpsList : List Json → String
  | [] => ""
  | [x] => Json.dumps x
  | x :: rest => Json.dumps x ++ ", " ++ Json.dumpsList rest

/-- Serialization of the key-value pairs of a JSON object. -/
def Json.dumpsFields : List (String × Json) → String
  | [] => ""
  | [(k, v)] => "\"" ++ k ++ "\": " ++ Json.dumps v
  | (k, v) :: rest => "\"" ++ k ++ "\": " ++ Json.dumps v ++ ", " ++ Json.dumpsFields rest

end

/-- Lookup of a key in a JSON object (Python dict indexing). -/
def Json.get? : Json → String → Option Json
  | Json.obj fields, k => fields.lookup k
  | _, _ => none

/-- Top-level keys of a JSON object, in insertion order. -/
def Json.keys : Json → List String
  | Json.obj fields => fields.map Prod.fst
  | _ => []

/-- A naive timestamp, the part of a datetime that isoformat prints. -/
structure Datetime where
  year : Nat
  month : Nat
  day : Nat
  hour : Nat
  minute : Nat
  second : Nat
deriving DecidableEq, Repr

/-- Zero padding to two digits, as in datetime.isoformat. -/
def pad2 (n : Nat) : String :=
  if n < 10 then "0" ++ toString n else toString n

/-- Zero padding of the year to four digits, as in datetime.isoformat. -/
def pad4 (n : Nat) : String :=
  if n < 10 then "000" ++ toString n
  else if n < 100 then "00" ++ toString n
  else if n < 1000 then "0" ++ toString n
  else toString n

/-- ISO-8601 rendering of a timestamp: message.date.isoformat() in the code. -/
def Datetime.isoformat (d : Datetime) : String :=
  pad4 d.year ++ "-" ++ pad2 d.month ++ "-" ++ pad2 d.day ++ "T" ++
    pad2 d.hour ++ ":" ++ pad2 d.minute ++ ":" ++ pad2 d.second

/-- The originating user of the update (update.effective_user).  Only id and
the bot flag are always present; the name and locale fields are optional. -/
structure UserInfo where
  id : Int
  is_bot : Bool
  first_name : Option String
  last_name : Option String
  username : Option String
  language_code : Option String
deriving DecidableEq, Repr

/-- The originating chat of the update (update.effective_chat). -/
structure ChatInfo where
  id : Int
  first_name : Option String
  last_name : Option String
  username : Option String
  chat_type : String
deriving DecidableEq, Repr

/-- The message carried by the update (update.effective_message). -/
structure MessageInfo where
  message_id : Int
  date : Datetime
  text : Option String
deriving DecidableEq, Repr

/-- One inbound update as seen by the handler: identity fields plus the raw
string submitted by the web app (update.effective_message.web_app_data.data). -/
structure InboundEvent where
  update_id : Int
  user : UserInfo
  chat : ChatInfo
  message : MessageInfo
  raw_data : String
deriving DecidableEq, Repr

/-- Translation of format_payload: builds the fixed envelope from the update
fields and the already parsed web-app payload, mirroring the dict literal of
the source key for key and in order. -/
def format_payload (update : InboundEvent) (web_app_data : Json) : Json :=
  let user_info := update.user
  let chat_info := update.chat
  let message := update.message
  Json.obj [
    ("update_id", Json.num update.update_id),
    ("message", Json.obj [
      ("message_id", Json.num message.message_id),
      ("from", Json.obj [
        ("id", Json.num user_info.id),
        ("is_bot", Json.bool user_info.is_bot),
        ("first_name", jsonOfOptStr user_info.first_name),
        ("last_name", jsonOfOptStr user_info.last_name),
        ("username", jsonOfOptStr user_info.username),
        ("language_code", jsonOfOptStr user_info.language_code)
      ]),
      ("chat", Json.obj [
        ("id", Json.num chat_info.id),
        ("first_name", jsonOfOptStr chat_info.first_name),
        ("last_name", jsonOfOptStr chat_info.last_name),
        ("username", jsonOfOptStr chat_info.username),
        ("type", Json.str chat_info.chat_type)
      ]),
      ("date", Json.str message.date.isoformat),
      ("text", jsonOfOptStr message.text),
      ("attachment", Json.obj [
        ("type", Json.str "OtherOrNone")
      ]),
      ("web_app_data", web_app_data)
    ])
  ]

/-- Outbound effects the program can perform, recorded in order.  Each entry
records an attempt issued by the code; whether a library call then raised is
tracked separately by the outcome parameters. -/
inductive Action where
  | log_info (s : String) : Action
  | log_error (s : String) : Action
  | http_post (body : Json) : Action
  | reply_html (text : String) (remove_keyboard : Bool) : Action
  | reply_text (text : String) : Action

/-- Outcome of the requests.post call: either a response with a status code
and body text, or a transport-level exception with a message. -/
inductive HttpOutcome where
  | response (status : Nat) (text : String) : HttpOutcome
  | exn (msg : String) : HttpOutcome
deriving DecidableEq, Repr

/-- Translation of send_to_webhook: logs the outgoing data, issues the POST,
and branches on the outcome, catching every exception.  The returned pair is
the action trace plus the exception channel of the Python call, whose normal
value is None (Unit). -/
def send_to_webhook (payload : Json) (http : HttpOutcome) : List Action × Except String Unit :=
  let attempt := [
    Action.log_info ("Sending the following data to the webhook: " ++ payload.dumps),
    Action.http_post payload]
  match http with
  | HttpOutcome.response status text =>
      if status = 200 then
        (attempt ++ [Action.log_info "Data successfully sent to the webhook."], Except.ok ())
      else
        (attempt ++ [Action.log_error ("Failed to send data to webhook. Status code: "
          ++ toString status ++ ", Response: " ++ text)], Except.ok ())
  | HttpOutcome.exn msg =>
      (attempt ++ [Action.log_error ("An error occurred while sending data to the webhook: "
        ++ msg)], Except.ok ())

/-- The generic failure reply sent from the except branch of the handler. -/
def genericFailureMsg : String :=
  "An error occurred while processing your data. Please try again later."

/-- The error log line written by the except branch of the handler. -/
def handlerErrorLog (e : String) : String :=
  "Error handling WebApp data: " ++ e

/-- The confirmation summary built by the handler.  The source reads each
value back out of the formatted_payload dict; those lookups are inlined here
to the equal field values that format_payload stored. -/
def response_message (update : InboundEvent) (web_app_data : Json) : String :=
  "Data received and sent to the webhook:\n\n"
    ++ "<b>Update ID:</b> " ++ toString update.update_id ++ "\n"
    ++ "<b>Message ID:</b> " ++ toString update.message.message_id ++ "\n"
    ++ "<b>From:</b> " ++ pyShow update.user.first_name ++ " "
    ++ pyShow update.user.last_name ++ " (@" ++ pyShow update.user.username ++ ")\n"
    ++ "<b>Text:</b> " ++ pyShow update.message.text ++ "\n"
    ++ "<b>Attachment Type:</b> OtherOrNone\n"
    ++ "<b>WebApp Data:</b> " ++ web_app_data.dumps ++ "\n"

/-- Outcomes of the library calls made during one handler invocation:
the result of json.loads on the raw web-app string (error holds the
exception text), the outcome of requests.post if it is reached, and the
exception raised by each Telegram reply call if it fails (none = the call
returns normally). -/
structure HandlerEnv where
  parsed : Except String Json
  http : HttpOutcome
  reply_html_exn : Option String
  reply_text_exn : Option String

/-- Lifting of an optional exception message into the exception channel. -/
def raiseOpt : Option String → Except String Unit
  | none => Except.ok ()
  | some e => Except.error e

/-- Translation of the web_app_data handler: the try block parses the raw
payload, logs it, builds the envelope, forwards it, and replies with the
confirmation; the except block logs the exception and sends the generic
failure reply.  Result: the action trace and the exception channel of the
handler itself (error = an exception escaped the handler). -/
def web_app_data (update : InboundEvent) (env : HandlerEnv) : List Action × Except String Unit :=
  match env.parsed with
  | Except.error e =>
      -- json.loads raised: control jumps to the except block, which logs the
      -- error and issues the generic reply; if that reply call itself raises,
      -- the exception leaves the handler.
      ([Action.log_error (handlerErrorLog e), Action.reply_text genericFailureMsg],
        raiseOpt env.reply_text_exn)
  | Except.ok raw_web_app_data =>
      let formatted_payload := format_payload update raw_web_app_data
      let sent := send_to_webhook formatted_payload env.http
      let tryTrace :=
        [Action.log_info ("Received WebApp data: " ++ raw_web_app_data.dumps)]
        ++ sent.fst
        ++ [Action.reply_html (response_message update raw_web_app_data) true]
      match env.reply_html_exn with
      | none => (tryTrace, Except.ok ())
      | some e =>
          -- reply_html raised: control jumps to the except block.
          (tryTrace
            ++ [Action.log_error (handlerErrorLog e), Action.reply_text genericFailureMsg],
            raiseOpt env.reply_text_exn)

/-- Classifier of user-visible reply actions, used to compare what the user
sees across different forwarding outcomes. -/
def isReply : Action → Bool
  | Action.reply_html _ _ => true
  | Action.reply_text _ => true
  | _ => false

/-- The forwarding step never issues a user-visible reply by itself. -/
theorem send_to_webhook_no_reply (p : Json) (h : HttpOutcome) :
    (send_to_webhook p h).fst.filter isReply = [] := by
  cases h with
  | response st txt => by_cases h200 : st = 200 <;> simp [send_to_webhook, h200, isReply]
  | exn m => simp [send_to_webhook, isReply]

/-- A sample inbound event, following the scenario of the spec: user Ann in a
private chat submits the payload choice = A with message text hello. -/
def sampleEvent : InboundEvent :=
  { update_id := 7
    user := { id := 1, is_bot := false, first_name := some "Ann", last_name := none,
              username := some "ann", language_code := none }
    chat := { id := 1, first_name := some "Ann", last_name := none, username := some "ann",
              chat_type := "private" }
    message := { message_id := 5, date := ⟨2024, 1, 1, 0, 0, 0⟩, text := some "hello" }
    raw_data := "\x7b\"choice\": \"A\"\x7d" }

/-- The parsed payload of the sample scenario. -/
def samplePayload : Json := Json.obj [("choice", Json.str "A")]

/-- An event in which every optional field is absent. -/
def bareEvent : InboundEvent :=
  { update_id := 0
    user := { id := 2, is_bot := false, first_name := none, last_name := none,
              username := none, language_code := none }
    chat := { id := 2, first_name := none, last_name := none, username := none,
              chat_type := "private" }
    message := { message_id := 1, date := ⟨2024, 6, 30, 12, 5, 9⟩, text := none }
    raw_data := "not-json" }

/-- Library outcomes for a run in which the payload fails to parse and all
reply calls succeed. -/
def envParseFail : HandlerEnv :=
  { parsed := Except.error "Expecting value: line 1 column 1 (char 0)"
    http := HttpOutcome.response 200 "ok"
    reply_html_exn := none
    reply_text_exn := none }

/-- Library outcomes for a run with a parsed payload and a 500 response from
the webhook. -/
def envHttp500 : HandlerEnv :=
  { parsed := Except.ok samplePayload
    http := HttpOutcome.response 500 "internal error"
    reply_html_exn := none
    reply_text_exn := none }

/-- Library outcomes for a run with a parsed payload and a 200 response. -/
def envHttp200 : HandlerEnv :=
  { parsed := Except.ok samplePayload
    http := HttpOutcome.response 200 "ok"
    reply_html_exn := none
    reply_text_exn := none }

/-- Library outcomes for a run in which the webhook POST succeeds but the
confirmation reply call raises. -/
def envReplyFail : HandlerEnv :=
  { parsed := Except.ok samplePayload
    http := HttpOutcome.response 200 "ok"
    reply_html_exn := some "Timed out"
    reply_text_exn := none }

/-- Library outcomes for a run in which the payload fails to parse and the
generic failure reply itself raises. -/
def envDoubleFail : HandlerEnv :=
  { parsed := Except.error "Expecting value: line 1 column 1 (char 0)"
    http := HttpOutcome.response 200 "ok"
    reply_html_exn := none
    reply_text_exn := some "network unreachable" }

/-- C1: for every inbound event and well-formed (already parsed) web-app
payload, the envelope built by format_payload carries the update id of the
event, the message id, the message text, the ISO-8601 rendering of the
timestamp, and the literal attachment-type marker OtherOrNone. -/
theorem c1_envelope_fields (ev : InboundEvent) (p : Json) :
    (format_payload ev p).get? "update_id" = some (Json.num ev.update_id)
    ∧ ((format_payload ev p).get? "message").bind (fun m => m.get? "message_id")
        = some (Json.num ev.message.message_id)
    ∧ ((format_payload ev p).get? "message").bind (fun m => m.get? "text")
        = some (jsonOfOptStr ev.message.text)
    ∧ ((format_payload ev p).get? "message").bind (fun m => m.get? "date")
        = some (Json.str ev.message.date.isoformat)
    ∧ (((format_payload ev p).get? "message").bind (fun m => m.get? "attachment")).bind
        (fun a => a.get? "type") = some (Json.str "OtherOrNone") :=
  ⟨rfl, rfl, rfl, rfl, rfl⟩

/-- C2: when the embedded payload does not parse as JSON, the handler issues
no HTTP POST and no confirmation reply, and sends the generic failure
message; the whole trace is one error log plus the generic reply. -/
theorem c2_bad_payload_no_post (ev : InboundEvent) (env : HandlerEnv) (e : String)
    (h : env.parsed = Except.error e) :
    (∀ b, Action.http_post b ∉ (web_app_data ev env).fst)
    ∧ (∀ s k, Action.reply_html s k ∉ (web_app_data ev env).fst)
    ∧ Action.reply_text genericFailureMsg ∈ (web_app_data ev env).fst
    ∧ (web_app_data ev env).fst
        = [Action.log_error (handlerErrorLog e), Action.reply_text genericFailureMsg] := by
  refine ⟨?_, ?_, ?_, ?_⟩
  · intro b hb
    simp [web_app_data, h] at hb
  · intro s k hk
    simp [web_app_data, h] at hk
  · simp [web_app_data, h]
  · simp [web_app_data, h]

/-- C2 witness: at the sample event with an unparsable payload, no POST of
the sample envelope occurs and the generic failure reply is sent. -/
theorem c2_bad_payload_no_post_witness :
    Action.http_post (format_payload sampleEvent samplePayload)
        ∉ (web_app_data sampleEvent envParseFail).fst
    ∧ Action.reply_text genericFailureMsg ∈ (web_app_data sampleEvent envParseFail).fst :=
  ⟨(c2_bad_payload_no_post sampleEvent envParseFail _ rfl).1 _,
    (c2_bad_payload_no_post sampleEvent envParseFail _ rfl).2.2.1⟩

/-- C3: the forwarder reports success, meaning its final log line is the
fixed success line, exactly when the HTTP outcome is a 200 response; for any
other status or a transport exception it reports failure, and on every
outcome the call returns normally (no exception escapes it). -/
theorem c3_forward_success_iff_200 (p : Json) (h : HttpOutcome) :
    ((send_to_webhook p h).fst.getLast?
        = some (Action.log_info "Data successfully sent to the webhook.")
      ↔ ∃ t, h = HttpOutcome.response 200 t)
    ∧ (send_to_webhook p h).snd = Except.ok () := by
  cases h with
  | response st txt =>
      by_cases h200 : st = 200 <;> simp [send_to_webhook, h200]
  | exn m => simp [send_to_webhook]

/-- C4: whenever the payload parsed, the confirmation summary is sent back to
the chat with the keyboard removed, whatever the forwarding outcome and even
if the reply call itself later raises. -/
theorem c4_confirmation_always_sent (ev : InboundEvent) (p : Json) (env : HandlerEnv)
    (h : env.parsed = Except.ok p) :
    Action.reply_html (response_message ev p) true ∈ (web_app_data ev env).fst := by
  cases henv : env.reply_html_exn <;> simp [web_app_data, h, henv]

/-- C4 witness: with a 500 response from the webhook, the confirmation is
still sent for the sample event. -/
theorem c4_confirmation_always_sent_witness :
    Action.reply_html (response_message sampleEvent samplePayload) true
      ∈ (web_app_data sampleEvent envHttp500).fst :=
  c4_confirmation_always_sent sampleEvent samplePayload envHttp500 rfl

/-- C5 counterexample: when the payload fails to parse and the generic
failure reply itself raises, the exception escapes the handler, so it is not
true that every exception raised during per-event processing is caught at
the top level of the handler. -/
theorem c5_counterexample :
    (web_app_data bareEvent envDoubleFail).snd = Except.error "network unreachable" := rfl

/-- C5 amended: provided the generic failure reply call itself returns
normally, every exception raised during per-event processing is caught at
the top level of the handler (the handler returns normally), and any failure
of the try block is answered with the generic failure message. -/
theorem c5_exceptions_caught (ev : InboundEvent) (env : HandlerEnv)
    (ht : env.reply_text_exn = none) :
    (web_app_data ev env).snd = Except.ok ()
    ∧ (((∃ e, env.parsed = Except.error e) ∨ env.reply_html_exn ≠ none) →
        Action.reply_text genericFailureMsg ∈ (web_app_data ev env).fst) := by
  cases hp : env.parsed with
  | error e =>
      simp [web_app_data, hp, ht, raiseOpt]
  | ok p =>
      cases hr : env.reply_html_exn with
      | none => simp [web_app_data, hp, hr, ht]
      | some e => simp [web_app_data, hp, hr, ht, raiseOpt]

/-- C5 witness: at the bare event with an unparsable payload and a working
reply channel, the handler returns normally and the generic failure reply is
sent. -/
theorem c5_exceptions_caught_witness :
    (web_app_data bareEvent envParseFail).snd = Except.ok ()
    ∧ Action.reply_text genericFailureMsg ∈ (web_app_data bareEvent envParseFail).fst :=
  ⟨(c5_exceptions_caught bareEvent envParseFail rfl).1,
    (c5_exceptions_caught bareEvent envParseFail rfl).2 (Or.inl ⟨_, rfl⟩)⟩

/-- C6: the envelope has a fixed set of keys at every level, independent of
the input, and each missing optional field is serialized as null under its
fixed key rather than omitted. -/
theorem c6_fixed_keys (ev : InboundEvent) (p : Json) :
    (format_payload ev p).keys = ["update_id", "message"]
    ∧ ((format_payload ev p).get? "message").map Json.keys
        = some ["message_id", "from", "chat", "date", "text", "attachment", "web_app_data"]
    ∧ (((format_payload ev p).get? "message").bind (fun m => m.get? "from")).map Json.keys
        = some ["id", "is_bot", "first_name", "last_name", "username", "language_code"]
    ∧ (((format_payload ev p).get? "message").bind (fun m => m.get? "chat")).map Json.keys
        = some ["id", "first_name", "last_name", "username", "type"]
    ∧ (((format_payload ev p).get? "message").bind (fun m => m.get? "attachment")).map
        Json.keys = some ["type"]
    ∧ (ev.user.last_name = none →
        ((((format_payload ev p).get? "message").bind (fun m => m.get? "from")).bind
          (fun f => f.get? "last_name")) = some Json.null)
    ∧ (ev.user.username = none →
        ((((format_payload ev p).get? "message").bind (fun m => m.get? "from")).bind
          (fun f => f.get? "username")) = some Json.null)
    ∧ (ev.user.language_code = none →
        ((((format_payload ev p).get? "message").bind (fun m => m.get? "from")).bind
          (fun f => f.get? "language_code")) = some Json.null)
    ∧ (ev.message.text = none →
        ((format_payload ev p).get? "message").bind (fun m => m.get? "text")
          = some Json.null) :=
  ⟨rfl, rfl, rfl, rfl, rfl,
    fun h => by simp only [format_payload, Json.get?, h, jsonOfOptStr]; rfl,
    fun h => by simp only [format_payload, Json.get?, h, jsonOfOptStr]; rfl,
    fun h => by simp only [format_payload, Json.get?, h, jsonOfOptStr]; rfl,
    fun h => by simp only [format_payload, Json.get?, h, jsonOfOptStr]; rfl⟩

/-- C6 witness: at the event with all optional fields absent, the optional
envelope fields are present with value null. -/
theorem c6_fixed_keys_witness :
    (format_payload bareEvent samplePayload).keys = ["update_id", "message"]
    ∧ ((((format_payload bareEvent samplePayload).get? "message").bind
          (fun m => m.get? "from")).bind (fun f => f.get? "last_name")) = some Json.null
    ∧ ((format_payload bareEvent samplePayload).get? "message").bind (fun m => m.get? "text")
        = some Json.null :=
  ⟨(c6_fixed_keys bareEvent samplePayload).1,
    (c6_fixed_keys bareEvent samplePayload).2.2.2.2.2.1 rfl,
    (c6_fixed_keys bareEvent samplePayload).2.2.2.2.2.2.2.2 rfl⟩

/-- C7: envelope construction is deterministic: equal inputs give envelopes
with byte-identical serialization, and the date field is a pure function of
the input timestamp. -/
theorem c7_deterministic (e1 e2 : InboundEvent) (p1 p2 : Json)
    (he : e1 = e2) (hp : p1 = p2) :
    (format_payload e1 p1).dumps = (format_payload e2 p2).dumps
    ∧ ((format_payload e1 p1).get? "message").bind (fun m => m.get? "date")
        = some (Json.str e1.message.date.isoformat) := by
  subst he; subst hp; exact ⟨rfl, rfl⟩

/-- C7 witness: at the sample event the serialization is reproducible and
the date field is the ISO rendering of the sample timestamp. -/
theorem c7_deterministic_witness :
    (format_payload sampleEvent samplePayload).dumps
      = (format_payload sampleEvent samplePayload).dumps
    ∧ ((format_payload sampleEvent samplePayload).get? "message").bind (fun m => m.get? "date")
        = some (Json.str "2024-01-01T00:00:00") :=
  c7_deterministic sampleEvent sampleEvent samplePayload samplePayload rfl rfl

/-- C8: the envelope builder is total: for every event, including one with
all optional fields absent, and every parsed payload, format_payload returns
a JSON object with the fixed top-level keys; it never fails, and parsing the
raw payload is done by its caller, not by it. -/
theorem c8_builder_total (ev : InboundEvent) (p : Json) :
    (∃ fields, format_payload ev p = Json.obj fields)
    ∧ (format_payload ev p).keys = ["update_id", "message"] :=
  ⟨⟨_, rfl⟩, rfl⟩

/-- C9: the forwarder returns None on every outcome (its exception channel
is always ok with a unit value), so the handler cannot observe the
forwarding outcome: two runs differing only in the HTTP outcome produce the
same user-visible replies and the same handler result. -/
theorem c9_outcome_unobservable (p : Json) (h : HttpOutcome)
    (ev : InboundEvent) (env1 env2 : HandlerEnv)
    (hp : env1.parsed = env2.parsed)
    (hh : env1.reply_html_exn = env2.reply_html_exn)
    (ht : env1.reply_text_exn = env2.reply_text_exn) :
    (send_to_webhook p h).snd = Except.ok ()
    ∧ (web_app_data ev env1).fst.filter isReply = (web_app_data ev env2).fst.filter isReply
    ∧ (web_app_data ev env1).snd = (web_app_data ev env2).snd := by
  refine ⟨?_, ?_⟩
  · cases h with
    | response st txt => by_cases h200 : st = 200 <;> simp [send_to_webhook, h200]
    | exn m => simp [send_to_webhook]
  · cases h1 : env1.parsed with
    | error e =>
        rw [h1] at hp
        simp [web_app_data, h1, ← hp, ht]
    | ok q =>
        rw [h1] at hp
        cases hr : env1.reply_html_exn with
        | none =>
            rw [hr] at hh
            simp [web_app_data, h1, ← hp, hr, ← hh, List.filter_append,
              send_to_webhook_no_reply, isReply]
        | some e =>
            rw [hr] at hh
            simp [web_app_data, h1, ← hp, hr, ← hh, ht, List.filter_append,
              send_to_webhook_no_reply, isReply]

/-- C9 witness: two runs on the sample event that differ only in the webhook
status (200 versus 500) show the same replies and the same handler result,
and the forwarder returns unit. -/
theorem c9_outcome_unobservable_witness :
    (send_to_webhook samplePayload (HttpOutcome.exn "connection refused")).snd = Except.ok ()
    ∧ (web_app_data sampleEvent envHttp200).fst.filter isReply
        = (web_app_data sampleEvent envHttp500).fst.filter isReply
    ∧ (web_app_data sampleEvent envHttp200).snd = (web_app_data sampleEvent envHttp500).snd :=
  c9_outcome_unobservable samplePayload (HttpOutcome.exn "connection refused")
    sampleEvent envHttp200 envHttp500 rfl rfl rfl

/-- C10: when the confirmation reply raises after the POST was already
issued, the trace still contains the POST of the envelope, yet the user is
sent the generic failure message: the error path does not undo or report the
completed forward. -/
theorem c10_failure_after_post (ev : InboundEvent) (p : Json) (e : String)
    (env : HandlerEnv) (h : env.parsed = Except.ok p)
    (hr : env.reply_html_exn = some e) :
    Action.http_post (format_payload ev p) ∈ (web_app_data ev env).fst
    ∧ Action.reply_text genericFailureMsg ∈ (web_app_data ev env).fst := by
  cases hh : env.http with
  | response st txt =>
      by_cases h200 : st = 200 <;> simp [web_app_data, send_to_webhook, h, hr, hh, h200]
  | exn m => simp [web_app_data, send_to_webhook, h, hr, hh]

/-- C10 witness: for the sample event, a successful POST followed by a
failing confirmation reply leaves both the POST and the generic failure
reply in the trace. -/
theorem c10_failure_after_post_witness :
    Action.http_post (format_payload sampleEvent samplePayload)
        ∈ (web_app_data sampleEvent envReplyFail).fst
    ∧ Action.reply_text genericFailureMsg ∈ (web_app_data sampleEvent envReplyFail).fst :=
  c10_failure_after_post sampleEvent samplePayload "Timed out" envReplyFail rfl rfl

end LogBot
